import Mathlib

/-!
Verification of the daily-log persistence and aggregation core of the
Macros-tracker application (src/app.py).

The embedding models:
  * a log entry (one row of the "daily_log" worksheet) with its seven columns;
  * the worksheet contents as a list of rows of typed cells, with `none`
    standing for the exception path in which the worksheet cannot be read
    (missing worksheet, the `except` branch of `load_log`);
  * `load_log` / `save_log` (app.py lines 38-55), including `ensure_columns`
    by-name column lookup and the `pd.to_numeric(errors="coerce").fillna(0.0)`
    coercion;
  * the food-logging append (lines 149-159) and the per-food macro scaling
    `reference * grams / 100.0`;
  * the delete-by-display-index operation (lines 198-202), where
    `today_log.index[i]` raises IndexError when `i` is out of range and
    `log_df.drop` removes the row with the selected label;
  * the daily totals (lines 234-237) summed over the rows whose date equals
    today;
  * the 30-day export filter (lines 268-270), the only place a retention
    cutoff appears: rows are kept when their date, parsed day-first as
    DD/MM/YYYY with unparseable dates coerced to NaT (and NaT compares
    false), is on or after `today - 30 days`.

Numeric values are modelled by `Rat`; the claims checked here only involve
values and comparisons that are exact in floating point as well.
-/

namespace Tracker

/-- One row of the daily log: the seven columns written by the app. -/
structure LogEntry where
  date : String
  food : String
  grams : Rat
  calories : Rat
  protein : Rat
  carbs : Rat
  fat : Rat
deriving DecidableEq, Repr

/-- A worksheet cell as gspread returns it from `get_all_records`: numeric
cells come back as numbers, everything else as strings. -/
inductive Cell where
  | s (v : String)
  | n (v : Rat)
deriving DecidableEq, Repr

/-- A worksheet row. -/
abbrev Row := List Cell

/-! ## Character-level helpers (kernel-friendly replacements for the string
splitting done by `pd.to_datetime` and `pd.to_numeric`). -/

/-- Value of a decimal digit character, `none` for a non-digit. -/
def digitVal (c : Char) : Option Nat :=
  if c.isDigit then some (c.toNat - 48) else none

/-- Reads a nonempty all-digit character list as a natural number. -/
def digitsToNat (cs : List Char) : Option Nat :=
  if cs.isEmpty then none
  else
    cs.foldl
      (fun acc c =>
        match acc, digitVal c with
        | some a, some d => some (a * 10 + d)
        | _, _ => none)
      (some 0)

/-- Splits a character list on a separator character; mirrors
`str.split(sep)` for a single-character separator. -/
def splitChars (sep : Char) : List Char → List (List Char)
  | [] => [[]]
  | c :: cs =>
    if c = sep then [] :: splitChars sep cs
    else
      match splitChars sep cs with
      | [] => [[c]]
      | r :: rs => (c :: r) :: rs

/-! ## Calendar dates

The app stores dates as DD/MM/YYYY strings and parses them with
`pd.to_datetime(..., format="%d/%m/%Y", errors="coerce")`. Ordinals follow
the proleptic Gregorian day count used by Python's `datetime.date`. -/

/-- Gregorian leap-year test. -/
def isLeap (y : Nat) : Bool :=
  (y % 4 == 0 && y % 100 != 0) || (y % 400 == 0)

/-- Number of days in month `m` of year `y` (months numbered 1-12). -/
def daysInMonth (y m : Nat) : Nat :=
  if m == 2 then (if isLeap y then 29 else 28)
  else if m == 4 || m == 6 || m == 9 || m == 11 then 30
  else 31

/-- Days in year `y` strictly before month `m`. -/
def daysBeforeMonth (y m : Nat) : Nat :=
  ((List.range (m - 1)).map (fun i => daysInMonth y (i + 1))).foldl (· + ·) 0

/-- Proleptic Gregorian ordinal of the date `y-m-d`, as in
`datetime.date.toordinal`: 0001-01-01 is day 1. -/
def toOrdinal (y m d : Nat) : Nat :=
  365 * (y - 1) + (y - 1) / 4 - (y - 1) / 100 + (y - 1) / 400
    + daysBeforeMonth y m + d

/-- Day-first parse of a DD/MM/YYYY date string, as
`pd.to_datetime(s, format="%d/%m/%Y", errors="coerce")`: returns
`some (d, m, y)` for a valid calendar date and `none` (NaT) otherwise. -/
def parseDMY (s : String) : Option (Nat × Nat × Nat) :=
  match splitChars '/' s.toList with
  | [ds, ms, ys] =>
    match digitsToNat ds, digitsToNat ms, digitsToNat ys with
    | some d, some m, some y =>
      if 1 ≤ y ∧ 1 ≤ m ∧ m ≤ 12 ∧ 1 ≤ d ∧ d ≤ daysInMonth y m then
        some (d, m, y)
      else none
    | _, _, _ => none
  | _ => none

/-! ## The 30-day export filter (app.py lines 268-270)

`cutoff = datetime.date.today() - datetime.timedelta(days=30)` and the frame
is filtered by `date_dt.dt.date >= cutoff`; a NaT date compares false and is
excluded. `asOf` is the ordinal of `datetime.date.today()`. -/

/-- Row predicate of the last-30-days filter: the row's date parses and its
ordinal is at least `asOf - 30`. -/
def pruneKeep (asOf : Int) (e : LogEntry) : Bool :=
  match parseDMY e.date with
  | some (d, m, y) => decide (asOf - 30 ≤ (toOrdinal y m d : Int))
  | none => false

/-- The last-30-days filter applied to a list of entries. -/
def pruneEntries (asOf : Int) (entries : List LogEntry) : List LogEntry :=
  entries.filter (pruneKeep asOf)

/-! ## Persistence: `save_log` and `load_log` (app.py lines 38-55) -/

/-- The header row `save_log` writes: `df.columns.tolist()` for the frame
produced by `load_log`/`ensure_columns`. -/
def stdHeader : Row :=
  [Cell.s "date", Cell.s "food", Cell.s "grams", Cell.s "calories",
   Cell.s "protein", Cell.s "carbs", Cell.s "fat"]

/-- Serialization of one entry in the standard column order. -/
def rowOf (e : LogEntry) : Row :=
  [Cell.s e.date, Cell.s e.food, Cell.n e.grams, Cell.n e.calories,
   Cell.n e.protein, Cell.n e.carbs, Cell.n e.fat]

/-- Reads a numeric-looking string, used to model
`pd.to_numeric(errors="coerce")` on string cells: optional leading minus
sign, digits, optional fractional part. -/
def parseDecimal (cs : List Char) : Option Rat :=
  let core : List Char → Option Rat := fun t =>
    match splitChars '.' t with
    | [a] => (digitsToNat a).map (fun n => (n : Rat))
    | [a, b] =>
      match digitsToNat a, digitsToNat b with
      | some n, some f => some ((n : Rat) + (f : Rat) / (10 : Rat) ^ b.length)
      | _, _ => none
    | _ => none
  match cs with
  | '-' :: rest => (core rest).map Neg.neg
  | _ => core cs

/-- String view of a cell, for the `date` and `food` columns. A numeric cell
in a string column does not arise from data written by `save_log`. -/
def cellToStr : Cell → String
  | Cell.s v => v
  | Cell.n _ => ""

/-- Numeric view of a cell: `pd.to_numeric(errors="coerce").fillna(0.0)`.
Numbers pass through; strings are parsed, and coercion failures become NaN
and then 0.0. -/
def cellToNum : Cell → Rat
  | Cell.n v => v
  | Cell.s v => (parseDecimal v.toList).getD 0

/-- Position of the column named `c` in a header row. -/
def headerIndex (header : Row) (c : String) : Option Nat :=
  header.findIdx? (fun cell => cell == Cell.s c)

/-- Cell of `row` under column `c` of `header`. gspread pads short rows with
empty strings; a column absent from the header is filled with its
`ensure_columns` default (empty for `date`/`food`, 0 after coercion). -/
def getField (header row : Row) (c : String) : Cell :=
  match headerIndex header c with
  | some i => row.getD i (Cell.s "")
  | none => Cell.s ""

/-- One record of `get_all_records` turned into a `LogEntry`:
`ensure_columns` selects the seven standard columns by name, then the
numeric columns are coerced. -/
def recordToEntry (header row : Row) : LogEntry :=
  { date := cellToStr (getField header row "date")
    food := cellToStr (getField header row "food")
    grams := cellToNum (getField header row "grams")
    calories := cellToNum (getField header row "calories")
    protein := cellToNum (getField header row "protein")
    carbs := cellToNum (getField header row "carbs")
    fat := cellToNum (getField header row "fat") }

/-- The `save_log` of app.py lines 51-55: `ws.clear()` empties the
worksheet, then for a nonempty frame the header and all rows are written.
For an empty frame nothing is written, so the stored sheet is empty. -/
def save_log (entries : List LogEntry) : List Row :=
  if entries.isEmpty then [] else stdHeader :: entries.map rowOf

/-- The `load_log` of app.py lines 38-49. `none` is the exception path
(worksheet unreadable): an empty frame with the standard columns. Otherwise
the first row is the header and the rest are records; `ensure_columns` and
the numeric coercion are applied to each record. No date parsing and no
retention filtering happen here. -/
def load_log : Option (List Row) → List LogEntry
  | none => []
  | some [] => []
  | some (header :: rows) => rows.map (recordToEntry header)

/-! ## Food database and logging (app.py lines 77-84 and 149-159) -/

/-- Reference macros of one food of the static database. -/
structure Macros where
  calories : Rat
  protein : Rat
  carbs : Rat
  fat : Rat
deriving DecidableEq, Repr

/-- The static `food_db` dictionary. -/
def food_db (name : String) : Option Macros :=
  if name = "Curd 100G" then some ⟨98, 11, 4, 5⟩
  else if name = "Roti" then some ⟨100, 3, 20, 1⟩
  else if name = "Sugar Tbsp" then some ⟨44, 0, 113 / 10, 0⟩
  else if name = "Soya Chunks 100G" then some ⟨345, 52, 33, 1 / 2⟩
  else if name = "Paneer 100G" then some ⟨296, 25, 6, 22⟩
  else if name = "Nakpro Plant Protein" then some ⟨138, 25, 4, 2⟩
  else none

/-- The new row built on a Log Food submit (lines 150-157): every macro of
the reference row is scaled by `grams / 100.0`, for every food alike. -/
def mkLoggedEntry (today food : String) (m : Macros) (grams : Rat) : LogEntry :=
  { date := today
    food := food
    grams := grams
    calories := m.calories * grams / 100
    protein := m.protein * grams / 100
    carbs := m.carbs * grams / 100
    fat := m.fat * grams / 100 }

/-- The log-food append (line 158): `pd.concat([log_df, new_row],
ignore_index=True)` puts the new row after all existing rows. -/
def logFood (entries : List LogEntry) (today food : String) (m : Macros)
    (grams : Rat) : List LogEntry :=
  entries ++ [mkLoggedEntry today food m grams]

/-! ## Deleting a row (app.py lines 198-202)

The in-memory frame keeps a pandas index label per row; after `load_log`
the labels are 0..n-1 and `pd.concat(..., ignore_index=True)` keeps them
unique. Deleting display row `i` computes `orig_idx = today_log.index[i]`
(IndexError when `i` is out of range of today's rows) and then
`log_df.drop(index=orig_idx)` removes the row carrying that label. -/

/-- The in-memory frame: rows together with their pandas index labels. -/
abbrev Store := List (Nat × LogEntry)

/-- Rows of the frame whose date equals today, labels kept
(`log_df[log_df["date"] == today]`). -/
def todayRows (today : String) (st : Store) : Store :=
  st.filter (fun p => p.2.date == today)

/-- The delete handler: look up the label of display row `i` of today's
view, then drop that label from the frame. `today_log.index[i]` raises
IndexError when `i` is not a valid position. -/
def removeOp (today : String) (st : Store) (i : Nat) : Except String Store :=
  match (todayRows today st).get? i with
  | some p => Except.ok (st.filter (fun q => q.1 != p.1))
  | none => Except.error "IndexError"

/-! ## Daily totals (app.py lines 234-237) -/

/-- The four daily totals. -/
structure Totals where
  calories : Rat
  protein : Rat
  carbs : Rat
  fat : Rat
deriving DecidableEq, Repr

/-- Componentwise sum of totals. -/
def totalsAdd (a b : Totals) : Totals :=
  ⟨a.calories + b.calories, a.protein + b.protein, a.carbs + b.carbs,
   a.fat + b.fat⟩

/-- The all-zero totals. -/
def totalsZero : Totals := ⟨0, 0, 0, 0⟩

/-- Sum of one numeric column over a list of entries. -/
def sumBy (f : LogEntry → Rat) (l : List LogEntry) : Rat :=
  l.foldr (fun e a => f e + a) 0

/-- Today's slice of the log: `log_df[log_df["date"] == today]`. -/
def today_log (entries : List LogEntry) (d : String) : List LogEntry :=
  entries.filter (fun e => e.date == d)

/-- The daily summary of lines 234-237: each column is summed over today's
slice, with an explicit 0 when the slice is empty. -/
def totals_for (entries : List LogEntry) (d : String) : Totals :=
  let t := today_log entries d
  if t.isEmpty then totalsZero
  else ⟨sumBy (fun e => e.calories) t, sumBy (fun e => e.protein) t,
        sumBy (fun e => e.carbs) t, sumBy (fun e => e.fat) t⟩

/-! ## Spec-side scaling (for the refinement comparison of the conversion
claim) -/

/-- Tests whether the character list starts with the pattern. -/
def startsWithSeq : List Char → List Char → Bool
  | _, [] => true
  | [], _ :: _ => false
  | c :: cs, p :: ps => c == p && startsWithSeq cs ps

/-- Tests whether the pattern occurs anywhere in the character list. -/
def containsSeq (pat : List Char) : List Char → Bool
  | [] => pat.isEmpty
  | c :: cs => startsWithSeq (c :: cs) pat || containsSeq pat cs

/-- Tests whether a food name carries the grams unit token. Modelled from
the spec: the food name encodes a unit hint via an embedded token such as
"100G", and the base amount is 100 exactly when that unit is grams. -/
def specUnitIsGrams (name : String) : Bool :=
  containsSeq ['1', '0', '0', 'G'] name.toList

/-- Modelled from the spec: `base_amount` is 100 when the food's unit is
grams and 1 otherwise. -/
def spec_base_amount (name : String) : Rat :=
  if specUnitIsGrams name then 100 else 1

/-- Modelled from the spec: `scaled = reference_value * (amount /
base_amount)`. -/
def spec_scaled (name : String) (referenceValue amount : Rat) : Rat :=
  referenceValue * (amount / spec_base_amount name)

/-! ## Concrete sample data used by witnesses and counterexamples -/

/-- Sample as-of day: the ordinal of 31/03/2020. -/
def asOfSample : Int := (toOrdinal 2020 3 31 : Nat)

/-- Sample entry dated exactly 30 days before `asOfSample`. -/
def entrySample : LogEntry := ⟨"01/03/2020", "Roti", 100, 100, 3, 20, 1⟩

/-- Sample entry dated exactly 35 days before `asOfSample`. -/
def entryOld : LogEntry := ⟨"25/02/2020", "Roti", 100, 100, 3, 20, 1⟩

/-- Sample entry whose date does not parse as DD/MM/YYYY. -/
def entryBadDate : LogEntry := ⟨"not-a-date", "Roti", 100, 100, 3, 20, 1⟩

/-! ## Helper lemmas -/

/-- Reading back a serialized row under the standard header restores the
entry: column lookup, string view and numeric coercion all invert
serialization. -/
theorem recordToEntry_rowOf (e : LogEntry) :
    recordToEntry stdHeader (rowOf e) = e := rfl

/-- Mapping serialization then deserialization over a list of entries is the
identity. -/
theorem map_record_rowOf (l : List LogEntry) :
    (l.map rowOf).map (recordToEntry stdHeader) = l := by
  induction l with
  | nil => rfl
  | cons e t ih => simp [List.map_cons, recordToEntry_rowOf, ih]

/-- Loading what `save_log` stored returns exactly the saved entries, with
no filtering of any kind. -/
theorem load_save_eq (l : List LogEntry) :
    load_log (some (save_log l)) = l := by
  cases l with
  | nil => rfl
  | cons e t =>
    show load_log (some (stdHeader :: (e :: t).map rowOf)) = e :: t
    show ((e :: t).map rowOf).map (recordToEntry stdHeader) = e :: t
    exact map_record_rowOf (e :: t)

/-! ## Claims -/

/-- C1: for every set of log entries whose dates all lie within the 30-day
retention window, saving the set and then loading it returns exactly the
pruned set: load(save(entries)) equals prune(entries). Within the window
the export filter keeps every entry, and `load_log` after `save_log`
returns the saved entries unchanged, so the two sides agree. -/
theorem c1_save_load_roundtrip (asOf : Int) (entries : List LogEntry)
    (h : ∀ e ∈ entries, pruneKeep asOf e = true) :
    load_log (some (save_log entries)) = pruneEntries asOf entries := by
  rw [load_save_eq]
  exact (List.filter_eq_self.mpr h).symm

/-- Witness for C1 at a concrete in-window entry. -/
theorem c1_witness :
    (∀ e ∈ [entrySample], pruneKeep asOfSample e = true) ∧
    load_log (some (save_log [entrySample])) =
      pruneEntries asOfSample [entrySample] :=
  ⟨by decide, c1_save_load_roundtrip asOfSample [entrySample] (by decide)⟩

/-- C2 counterexample: saving a single entry dated 35 days before the as-of
date leaves that entry in durable storage, and a subsequent load returns
it, even though its date is outside the 30-day window: neither `save_log`
nor `load_log` applies the retention policy. -/
theorem c2_counterexample :
    pruneKeep asOfSample entryOld = false ∧
    save_log [entryOld] = [stdHeader, rowOf entryOld] ∧
    load_log (some (save_log [entryOld])) = [entryOld] := by
  refine ⟨by decide, rfl, rfl⟩

/-- C2 (amended): the retention policy is not applied on load or save; the
durable store holds exactly what was saved, whatever the entry dates, and
load returns it all. The 30-day cutoff is applied only to the export view.
-/
theorem c2_no_retention_on_load_save (entries : List LogEntry) :
    load_log (some (save_log entries)) = entries :=
  load_save_eq entries

/-- C3: a load over a missing worksheet (the exception path) or an empty
worksheet returns the empty sequence of entries; no error escapes. -/
theorem c3_load_missing_or_empty :
    load_log none = [] ∧ load_log (some []) = [] :=
  ⟨rfl, rfl⟩

/-- C4 counterexample: a stored row whose date does not parse is NOT
dropped by `load_log` — it comes back in the loaded set. `load_log` never
parses dates; unparseable dates are only excluded by the export filter. -/
theorem c4_counterexample :
    parseDMY entryBadDate.date = none ∧
    load_log (some (save_log [entryBadDate])) ≠ [] ∧
    load_log (some (save_log [entryBadDate])) = [entryBadDate] := by
  refine ⟨by decide, by decide, rfl⟩

/-- C4 (amended): a stored row with an unparseable date is kept by the
load (the load continues and does not fail), and such a row is excluded
only by the 30-day export filter, for every as-of date. -/
theorem c4_unparseable_dates_kept (e : LogEntry)
    (h : parseDMY e.date = none) :
    load_log (some (save_log [e])) = [e] ∧
    ∀ asOf : Int, pruneEntries asOf [e] = [] := by
  refine ⟨load_save_eq [e], ?_⟩
  intro asOf
  simp [pruneEntries, List.filter, pruneKeep, h]

/-- Witness for C4 at a concrete unparseable-date entry. -/
theorem c4_witness :
    parseDMY entryBadDate.date = none ∧
    (load_log (some (save_log [entryBadDate])) = [entryBadDate] ∧
     ∀ asOf : Int, pruneEntries asOf [entryBadDate] = []) :=
  ⟨by decide, c4_unparseable_dates_kept entryBadDate (by decide)⟩

/-- C5 counterexample: saving an empty entry set clears the worksheet and
writes nothing, so the stored sheet is empty and in particular does not
contain the fixed header row the claim promises. -/
theorem c5_counterexample :
    save_log [] = ([] : List Row) ∧ stdHeader ∉ save_log [] := by
  refine ⟨rfl, by decide⟩

/-- C5 (amended): saving an empty input clears the store to an empty but
still readable worksheet (no header row is written, and the worksheet is
never missing — loading it yields the empty sequence); saving a nonempty
input overwrites prior content with the fixed header followed by exactly
the given rows, and loading back returns exactly the given set. -/
theorem c5_save_overwrites (entries : List LogEntry) :
    save_log [] = ([] : List Row) ∧
    load_log (some (save_log [])) = [] ∧
    (entries ≠ [] → save_log entries = stdHeader :: entries.map rowOf) ∧
    load_log (some (save_log entries)) = entries := by
  refine ⟨rfl, rfl, ?_, load_save_eq entries⟩
  intro h
  cases entries with
  | nil => exact absurd rfl h
  | cons e t => rfl

/-- Witness for C5 at a concrete nonempty entry set. -/
theorem c5_witness :
    ([entrySample] : List LogEntry) ≠ [] ∧
    save_log [entrySample] = stdHeader :: [entrySample].map rowOf :=
  ⟨by decide, (c5_save_overwrites [entrySample]).2.2.1 (by decide)⟩

/-- C6 counterexample: with a store holding one entry dated today, deleting
display row 0 succeeds and empties the store, but deleting the same target
again is not a silent no-op — `today_log.index[0]` raises IndexError. -/
theorem c6_counterexample :
    removeOp "01/03/2020" [(0, entrySample)] 0 = Except.ok [] ∧
    removeOp "01/03/2020" [] 0 = Except.error "IndexError" :=
  ⟨rfl, rfl⟩

/-- C6 (amended): deleting a display position with no corresponding row in
today's view raises an IndexError (so the handler stops before dropping or
saving anything) rather than silently doing nothing. -/
theorem c6_remove_out_of_range (today : String) (st : Store) (i : Nat)
    (h : (todayRows today st).length ≤ i) :
    removeOp today st i = Except.error "IndexError" := by
  unfold removeOp
  rw [List.get?_eq_none.mpr h]

/-- Witness for C6 at a concrete empty store. -/
theorem c6_witness :
    (todayRows "01/03/2020" ([] : Store)).length ≤ 0 ∧
    removeOp "01/03/2020" [] 0 = Except.error "IndexError" :=
  ⟨by decide, c6_remove_out_of_range "01/03/2020" [] 0 (by decide)⟩

/-- C7 counterexample: "Sugar Tbsp" has no grams token, so the claimed
base amount is 1 and the claimed logged calories for amount 1 are 44; the
code divides by 100 for every food and logs 0.44 calories instead. -/
theorem c7_counterexample :
    food_db "Sugar Tbsp" = some ⟨44, 0, 113 / 10, 0⟩ ∧
    specUnitIsGrams "Sugar Tbsp" = false ∧
    spec_scaled "Sugar Tbsp" 44 1 = 44 ∧
    (mkLoggedEntry "01/03/2020" "Sugar Tbsp" ⟨44, 0, 113 / 10, 0⟩ 1).calories
      = 11 / 25 ∧
    ((11 : Rat) / 25) ≠ 44 := by
  have hg : specUnitIsGrams "Sugar Tbsp" = false := by decide
  refine ⟨rfl, hg, ?_, ?_, ?_⟩
  · rw [spec_scaled, spec_base_amount, hg]
    norm_num
  · show (44 : Rat) * 1 / 100 = 11 / 25
    norm_num
  · norm_num

/-- C7 (amended): every logged macro value equals
reference_value * (amount / 100), for every food alike — the base amount is
always 100, with the amount always read in grams; in particular the
reference row (100, 10, 5, 2) per 100g at amount 250 yields logged macros
(250, 25, 12.5, 5). -/
theorem c7_scaling (t f : String) (m : Macros) (g : Rat) :
    (mkLoggedEntry t f m g).calories = m.calories * (g / 100) ∧
    (mkLoggedEntry t f m g).protein = m.protein * (g / 100) ∧
    (mkLoggedEntry t f m g).carbs = m.carbs * (g / 100) ∧
    (mkLoggedEntry t f m g).fat = m.fat * (g / 100) ∧
    (mkLoggedEntry t f ⟨100, 10, 5, 2⟩ 250).calories = 250 ∧
    (mkLoggedEntry t f ⟨100, 10, 5, 2⟩ 250).protein = 25 ∧
    (mkLoggedEntry t f ⟨100, 10, 5, 2⟩ 250).carbs = 25 / 2 ∧
    (mkLoggedEntry t f ⟨100, 10, 5, 2⟩ 250).fat = 5 := by
  refine ⟨?_, ?_, ?_, ?_, ?_, ?_, ?_, ?_⟩ <;>
    norm_num [mkLoggedEntry, mul_div_assoc]

/-- Column sums distribute over list concatenation. -/
theorem sumBy_append (f : LogEntry → Rat) (l1 l2 : List LogEntry) :
    sumBy f (l1 ++ l2) = sumBy f l1 + sumBy f l2 := by
  induction l1 with
  | nil => simp [sumBy]
  | cons e t ih =>
    simp only [List.cons_append, sumBy, List.foldr_cons] at *
    rw [ih, add_assoc]

/-- The explicit empty-slice zero of lines 234-237 coincides with the
column sums, so `totals_for` is the componentwise sum unconditionally. -/
theorem totals_for_eq (entries : List LogEntry) (d : String) :
    totals_for entries d =
      ⟨sumBy (fun e => e.calories) (today_log entries d),
       sumBy (fun e => e.protein) (today_log entries d),
       sumBy (fun e => e.carbs) (today_log entries d),
       sumBy (fun e => e.fat) (today_log entries d)⟩ := by
  unfold totals_for
  by_cases h : (today_log entries d).isEmpty
  · rw [List.isEmpty_iff] at h
    simp [h, totalsZero, sumBy]
  · simp [h]

/-- C8: `totals_for` sums the four macro columns over the entries whose
date equals the given day; it is all-zero (not an error) when no entries
match, and additive over any split of the entry list, hence over any
partition of the slice for that day. -/
theorem c8_totals (xs ys : List LogEntry) (d : String) :
    totals_for (xs ++ ys) d
      = totalsAdd (totals_for xs d) (totals_for ys d) ∧
    totals_for [] d = totalsZero ∧
    ((∀ e ∈ xs, e.date ≠ d) → totals_for xs d = totalsZero) := by
  refine ⟨?_, rfl, ?_⟩
  · rw [totals_for_eq, totals_for_eq, totals_for_eq]
    simp [today_log, List.filter_append, sumBy_append, totalsAdd]
  · intro h
    have hnil : today_log xs d = [] := by
      apply List.filter_eq_nil_iff.mpr
      intro e he
      simpa using h e he
    rw [totals_for_eq, hnil]
    rfl

/-- Witness for C8 at concrete entry lists: additivity over a split, and
all-zero totals for a day no entry matches. -/
theorem c8_witness :
    totals_for ([entrySample] ++ [entryOld]) "01/03/2020"
      = totalsAdd (totals_for [entrySample] "01/03/2020")
          (totals_for [entryOld] "01/03/2020") ∧
    (∀ e ∈ [entryOld], e.date ≠ "01/03/2020") ∧
    totals_for [entryOld] "01/03/2020" = totalsZero :=
  ⟨(c8_totals [entrySample] [entryOld] "01/03/2020").1, by decide,
   (c8_totals [entryOld] [] "01/03/2020").2.2 (by decide)⟩

/-- C9: the 30-day boundary of the retention filter is inclusive — for any
as-of day, an entry dated exactly 30 days earlier is kept by the filter and
an entry dated exactly 35 days earlier is excluded. -/
theorem c9_retention_boundary (asOf : Int) (entries : List LogEntry)
    (e : LogEntry) (d m y : Nat) (he : e ∈ entries)
    (hp : parseDMY e.date = some (d, m, y)) :
    ((toOrdinal y m d : Int) = asOf - 30 →
      e ∈ pruneEntries asOf entries) ∧
    ((toOrdinal y m d : Int) = asOf - 35 →
      e ∉ pruneEntries asOf entries) := by
  constructor
  · intro h30
    apply List.mem_filter.mpr
    refine ⟨he, ?_⟩
    simp only [pruneKeep, hp, decide_eq_true_eq]
    omega
  · intro h35 hmem
    have hkeep := (List.mem_filter.mp hmem).2
    simp only [pruneKeep, hp, decide_eq_true_eq] at hkeep
    omega

/-- Witness for C9: as of 31/03/2020 the filter keeps the entry dated
01/03/2020 (30 days earlier) and drops the entry dated 25/02/2020 (35 days
earlier). -/
theorem c9_witness :
    entrySample ∈ pruneEntries asOfSample [entrySample, entryOld] ∧
    entryOld ∉ pruneEntries asOfSample [entrySample, entryOld] :=
  ⟨(c9_retention_boundary asOfSample [entrySample, entryOld] entrySample
      1 3 2020 (by decide) (by decide)).1 (by decide),
   (c9_retention_boundary asOfSample [entrySample, entryOld] entryOld
      25 2 2020 (by decide) (by decide)).2 (by decide)⟩

/-- C10: logging a food appends exactly one new row at the end of the
store: the length grows by one, every pre-existing row is unchanged at its
position, and the appended row is the scaled entry for today. -/
theorem c10_append_frame (entries : List LogEntry) (t f : String)
    (m : Macros) (g : Rat) :
    (logFood entries t f m g).length = entries.length + 1 ∧
    (∀ i, i < entries.length →
      (logFood entries t f m g)[i]? = entries[i]?) ∧
    (logFood entries t f m g).getLast? = some (mkLoggedEntry t f m g) := by
  refine ⟨by simp [logFood], ?_, ?_⟩
  · intro i hi
    exact List.getElem?_append_left hi
  · simp [logFood]

/-- Witness for C10 at a concrete one-entry store. -/
theorem c10_witness :
    0 < ([entrySample] : List LogEntry).length ∧
    (logFood [entrySample] "01/03/2020" "Roti" ⟨100, 3, 20, 1⟩ 100)[0]?
      = ([entrySample] : List LogEntry)[0]? :=
  ⟨by decide,
   (c10_append_frame [entrySample] "01/03/2020" "Roti" ⟨100, 3, 20, 1⟩
      100).2.1 0 (by decide)⟩

end Tracker
